import Mathlib

/-!
Shallow embedding of src/transponder.py.

Real-valued quantities (speed in km/h, position in km, dt and sim_time in
seconds) are modelled as rationals.  A vehicle behavior in the Python code is
a callable that receives the vehicle and may mutate it and may also raise; it
is modelled as a function from the current vehicle state (plus dt and
sim_time) to the state it leaves behind together with a Bool that is true
when the callable raised.  Vehicle.update catches the exception, so it uses
the returned state either way; the Bool only distinguishes the warning path.

A Python dict record is modelled as an association list of string keys and
values, preserving insertion order, which is what the CSV exporter reads via
the keys of the first record.
-/

/-- Truncation toward zero, the semantics of the Python int() conversion
applied to a number. -/
def pyInt (q : ℚ) : ℤ :=
  if 0 ≤ q then ⌊q⌋ else ⌈q⌉

/-- Round to the nearest integer, ties to even, the semantics of the Python
round() builtin on an exact value. -/
def roundHalfEven (q : ℚ) : ℤ :=
  if q - ⌊q⌋ < 1 / 2 then ⌊q⌋
  else if 1 / 2 < q - ⌊q⌋ then ⌊q⌋ + 1
  else if ⌊q⌋ % 2 = 0 then ⌊q⌋ else ⌊q⌋ + 1

/-- Python round(q, n): round to n decimal digits. -/
def pyRound (q : ℚ) (n : ℕ) : ℚ :=
  (roundHalfEven (q * 10 ^ n) : ℚ) / 10 ^ n

/-- The mutable state of a Vehicle: vehicle_id, speed (km/h), position (km),
the fields set by Vehicle.__init__ (src/transponder.py lines 35-37). -/
structure VehicleState where
  vehicle_id : String
  speed : ℚ
  position : ℚ
deriving DecidableEq, Repr

/-- A behavior callable: given the vehicle state, dt and sim_time, it returns
the state it leaves the vehicle in and whether it raised an exception. -/
abbrev Behavior : Type := VehicleState → ℚ → ℚ → VehicleState × Bool

/-- A Vehicle: its state plus the optional behavior attached at
construction (src/transponder.py lines 29-38). -/
structure Vehicle where
  state : VehicleState
  behavior : Option Behavior

/-- Vehicle.__init__(vehicle_id, speed, behavior): position starts at 0.0,
there is no initial-position parameter (src/transponder.py lines 29-38). -/
def Vehicle.make (vehicle_id : String) (speed : ℚ) (behavior : Option Behavior) :
    Vehicle :=
  ⟨⟨vehicle_id, speed, 0⟩, behavior⟩

/-- The state of the vehicle after the behavior block of Vehicle.update
(src/transponder.py lines 45-49): no behavior leaves the state alone; a
behavior leaves whatever state it produced, whether or not it raised, since
the exception is caught. -/
def runBehavior (v : Vehicle) (dt simTime : ℚ) : VehicleState :=
  match v.behavior with
  | none => v.state
  | some b => (b v.state dt simTime).1

/-- Vehicle.update(dt, sim_time) (src/transponder.py lines 40-52): run the
behavior under a try/except, then add (speed / 3600) * dt to the position. -/
def Vehicle.update (v : Vehicle) (dt simTime : ℚ) : Vehicle :=
  let s := runBehavior v dt simTime
  { v with state := { s with position := s.position + (s.speed / 3600) * dt } }

/-- A value stored in a record: the vehicle_id string or a number. -/
inductive Value where
  | str : String → Value
  | num : ℚ → Value
deriving DecidableEq, Repr

/-- A Python dict record as an ordered association list. -/
abbrev Record : Type := List (String × Value)

/-- Transponder.transmit (src/transponder.py lines 62-68): a new dict with
vehicle_id verbatim, speed rounded to 2 digits, position rounded to 3
digits.  The Python Transponder holds a non-owning reference to its vehicle,
so transmit is a function of the current vehicle state only. -/
def Transponder.transmit (v : VehicleState) : Record :=
  [("vehicle_id", Value.str v.vehicle_id),
   ("speed", Value.num (pyRound v.speed 2)),
   ("position", Value.num (pyRound v.position 3))]

/-- The record appended per vehicle per tick by update_system
(src/transponder.py lines 100-103): the transmit dict with the key "time"
(not "sim_time") inserted after the existing keys. -/
def timedRecord (v : Vehicle) (simTime : ℚ) : Record :=
  Transponder.transmit v.state ++ [("time", Value.num simTime)]

/-- TrafficSystem state (src/transponder.py lines 78-89).  The Python
transponder list is index-aligned with the vehicle list and each transponder
merely references its vehicle, so the snapshot phase is modelled as a pass
over the vehicle list itself. -/
structure TrafficSystem where
  vehicles : List Vehicle
  data_log : List Record
  write_log : Bool
  csv_filename : String
  json_filename : String

/-- TrafficSystem.__init__ (src/transponder.py lines 78-89). -/
def TrafficSystem.make (write_log : Bool) (csv_filename json_filename : String) :
    TrafficSystem :=
  ⟨[], [], write_log, csv_filename, json_filename⟩

/-- TrafficSystem.add_vehicle (src/transponder.py lines 91-93): append the
vehicle and its bound transponder. -/
def TrafficSystem.add_vehicle (sys : TrafficSystem) (v : Vehicle) : TrafficSystem :=
  { sys with vehicles := sys.vehicles ++ [v] }

/-- TrafficSystem.update_system(dt, sim_time) (src/transponder.py lines
95-104): first update every vehicle in registration order, then transmit
every transponder in the same order, attach the timestamp under the key
"time", and append each record to the log. -/
def TrafficSystem.update_system (sys : TrafficSystem) (dt simTime : ℚ) :
    TrafficSystem :=
  let vs := sys.vehicles.map (fun v => v.update dt simTime)
  { sys with
    vehicles := vs
    data_log := sys.data_log ++ vs.map (fun v => timedRecord v simTime) }

/-- The files the export collaborator would write: the CSV field order (keys
of the first record), the CSV rows, and the JSON array. -/
structure ExportOutput where
  csv_fieldnames : List String
  csv_rows : List Record
  json_data : List Record

/-- TrafficSystem._export_logs (src/transponder.py lines 130-149): an empty
log means a warning and an early return with no file touched, modelled as
none; otherwise both files are written from the log. -/
def TrafficSystem.export_logs (log : List Record) : Option ExportOutput :=
  match log with
  | [] => none
  | r :: _ => some ⟨r.map Prod.fst, log, log⟩

/-- The simulate loop body iterated (src/transponder.py lines 120-124): each
iteration calls update_system at the current sim_time and then advances
sim_time by dt.  The realtime sleep is pacing only and does not touch the
state. -/
def TrafficSystem.runSteps (sys : TrafficSystem) (dt simTime : ℚ) :
    ℕ → TrafficSystem
  | 0 => sys
  | n + 1 =>
      TrafficSystem.runSteps (sys.update_system dt simTime) dt (simTime + dt) n

/-- TrafficSystem.simulate(duration, dt) (src/transponder.py lines 106-128):
steps = int(duration / dt), sim_time starts at 0, and after the loop the
export runs when write_log is set.  The returned Option ExportOutput is what
the export collaborator wrote, none when nothing was written. -/
def TrafficSystem.simulate (sys : TrafficSystem) (duration dt : ℚ) :
    TrafficSystem × Option ExportOutput :=
  let steps := (pyInt (duration / dt)).toNat
  let sys1 := TrafficSystem.runSteps sys dt 0 steps
  (sys1, if sys1.write_log then TrafficSystem.export_logs sys1.data_log else none)

/-- TrafficSystem.analyze (src/transponder.py lines 151-160): apply the
callback to each record of the log in order under a try/except, so a raising
callback is logged and the loop continues.  The callback returns an Except;
the result is the invocation trace, pairing each visited record with the
outcome of its callback call. -/
def TrafficSystem.analyze {α : Type} (cb : Record → Except String α) :
    List Record → List (Record × Except String α)
  | [] => []
  | r :: rest => (r, cb r) :: TrafficSystem.analyze cb rest

/-- random_slowdown (src/transponder.py lines 165-171): when
int(sim_time) % 10 == 0 and sim_time > 0, set speed to
max(0, speed + change) where change is the value random.uniform(-5, 5)
produced; otherwise do nothing.  The random draw is passed in explicitly. -/
def random_slowdown (change : ℚ) (v : VehicleState) (dt simTime : ℚ) :
    VehicleState :=
  if pyInt simTime % 10 = 0 ∧ 0 < simTime then
    { v with speed := max 0 (v.speed + change) }
  else v

/-- Modelled from the spec: the per-vehicle interleaved tick order of the
spec (update one vehicle, snapshot it, append its record, then move to the
next vehicle in registration order), written for comparison with the
two-phase TrafficSystem.update_system of the code.  In this embedding a
behavior is a function of its own vehicle state only, so the proviso that
behaviors touch only their own vehicle holds by construction. -/
def TrafficSystem.tickSpec (sys : TrafficSystem) (dt simTime : ℚ) :
    TrafficSystem :=
  let p := sys.vehicles.foldl
    (fun acc v =>
      let v2 := v.update dt simTime
      (acc.1 ++ [v2], acc.2 ++ [timedRecord v2 simTime]))
    (([] : List Vehicle), ([] : List Record))
  { sys with vehicles := p.1, data_log := sys.data_log ++ p.2 }

/-- The vehicle list after n ticks starting at the given sim_time. -/
def simVehicles (vs : List Vehicle) (dt simTime : ℚ) : ℕ → List Vehicle
  | 0 => vs
  | n + 1 => simVehicles (vs.map (fun v => v.update dt simTime)) dt (simTime + dt) n

/-- The records appended by n ticks starting at the given sim_time. -/
def simLog (vs : List Vehicle) (dt simTime : ℚ) : ℕ → List Record
  | 0 => []
  | n + 1 =>
      let vs2 := vs.map (fun v => v.update dt simTime)
      vs2.map (fun v => timedRecord v simTime) ++ simLog vs2 dt (simTime + dt) n

/-- A behavior that always raises: it leaves the state it received and
reports the exception. -/
def alwaysFail : Behavior := fun s _ _ => (s, true)

/-- A concrete vehicle whose behavior always raises. -/
def vFail : Vehicle := Vehicle.make "A" 20 (some alwaysFail)

/-- A concrete vehicle with no behavior. -/
def vOk : Vehicle := Vehicle.make "B" 30 none

/-- A concrete vehicle with negative speed, no behavior, position 5. -/
def vNeg : Vehicle := ⟨⟨"N", -10, 5⟩, none⟩

/-- A concrete one-vehicle system. -/
def sysOne : TrafficSystem :=
  ⟨[Vehicle.make "V1" 10 none], [], true, "data_log.csv", "data_log.json"⟩

/-- A concrete two-vehicle system: the first vehicle has an always-raising
behavior, the second has none. -/
def sysTwo : TrafficSystem :=
  ⟨[vFail, vOk], [], false, "data_log.csv", "data_log.json"⟩

/-- A concrete vehicle state for the random_slowdown witness. -/
def vsW : VehicleState := ⟨"W", 50, 7⟩

theorem lookup_timedRecord (v : Vehicle) (t : ℚ) :
    List.lookup "time" (timedRecord v t) = some (Value.num t) := by
  simp [timedRecord, Transponder.transmit, List.lookup]

theorem keys_timedRecord (v : Vehicle) (t : ℚ) :
    (timedRecord v t).map Prod.fst = ["vehicle_id", "speed", "position", "time"] := by
  simp [timedRecord, Transponder.transmit]

theorem runSteps_eq (n : ℕ) : ∀ (sys : TrafficSystem) (dt t : ℚ),
    TrafficSystem.runSteps sys dt t n =
      { sys with vehicles := simVehicles sys.vehicles dt t n,
                 data_log := sys.data_log ++ simLog sys.vehicles dt t n } := by
  induction n with
  | zero =>
      intro sys dt t
      simp [TrafficSystem.runSteps, simVehicles, simLog]
  | succ n ih =>
      intro sys dt t
      rw [TrafficSystem.runSteps, ih]
      simp [TrafficSystem.update_system, simVehicles, simLog, List.append_assoc]

theorem simLog_length (n : ℕ) : ∀ (vs : List Vehicle) (dt t : ℚ),
    (simLog vs dt t n).length = n * vs.length := by
  induction n with
  | zero => intro vs dt t; simp [simLog]
  | succ n ih =>
      intro vs dt t
      simp [simLog, ih]
      ring

theorem time_shift (t dt : ℚ) (k : ℕ) :
    t + ((k : ℚ) + 1) * dt = t + dt + (k : ℚ) * dt := by ring

theorem simLog_times (n : ℕ) : ∀ (vs : List Vehicle) (dt t : ℚ),
    (simLog vs dt t n).map (fun r => List.lookup "time" r)
      = (List.range n).flatMap
          (fun k => List.replicate vs.length (some (Value.num (t + (k : ℚ) * dt)))) := by
  induction n with
  | zero => intro vs dt t; simp [simLog]
  | succ n ih =>
      intro vs dt t
      simp only [simLog, List.range_succ_eq_map, List.flatMap_cons, List.flatMap_map,
        List.map_append]
      rw [ih]
      congr 1
      · rw [List.map_map]
        have hcomp : ((fun r => List.lookup "time" r) ∘ fun v => timedRecord v t)
            = fun _ : Vehicle => some (Value.num t) := by
          funext v
          simp [lookup_timedRecord]
        rw [hcomp, List.map_const']
        simp
      · have hfun : (fun k : ℕ => List.replicate (vs.map (fun v => v.update dt t)).length
              (some (Value.num (t + dt + (k : ℚ) * dt))))
            = fun k : ℕ => List.replicate vs.length
              (some (Value.num (t + ((Nat.succ k : ℕ) : ℚ) * dt))) := by
          funext k
          rw [List.length_map]
          congr 2
          push_cast
          ring
        rw [hfun]

theorem simVehicles_nil (n : ℕ) : ∀ (dt t : ℚ), simVehicles [] dt t n = [] := by
  induction n with
  | zero => intro dt t; rfl
  | succ n ih => intro dt t; simp [simVehicles, ih]

theorem simLog_nil (n : ℕ) : ∀ (dt t : ℚ), simLog [] dt t n = [] := by
  induction n with
  | zero => intro dt t; rfl
  | succ n ih => intro dt t; simp [simLog, ih]

theorem tick_foldl (dt t : ℚ) (l : List Vehicle) : ∀ (a : List Vehicle) (b : List Record),
    l.foldl (fun acc v =>
        let v2 := v.update dt t
        (acc.1 ++ [v2], acc.2 ++ [timedRecord v2 t])) (a, b)
      = (a ++ l.map (fun v => v.update dt t),
         b ++ l.map (fun v => timedRecord (v.update dt t) t)) := by
  induction l with
  | nil => intro a b; simp
  | cons v l ih =>
      intro a b
      rw [List.foldl_cons, ih]
      simp

theorem roundHalfEven_close (q : ℚ) : |(roundHalfEven q : ℚ) - q| ≤ 1 / 2 := by
  have hfl : (⌊q⌋ : ℚ) ≤ q := Int.floor_le q
  have hfu : q < ⌊q⌋ + 1 := Int.lt_floor_add_one q
  unfold roundHalfEven
  split_ifs with h1 h2 h3 <;>
    · rw [abs_le]
      push_cast
      constructor <;> linarith

theorem pyRound_close (q : ℚ) (n : ℕ) : |pyRound q n - q| ≤ 1 / (2 * 10 ^ n) := by
  have h := roundHalfEven_close (q * 10 ^ n)
  have hp : (0 : ℚ) < 10 ^ n := by positivity
  unfold pyRound
  have hsub : (roundHalfEven (q * 10 ^ n) : ℚ) / 10 ^ n - q
      = ((roundHalfEven (q * 10 ^ n) : ℚ) - q * 10 ^ n) / 10 ^ n := by
    field_simp
    ring
  rw [hsub, abs_div, abs_of_pos hp]
  calc |(roundHalfEven (q * 10 ^ n) : ℚ) - q * 10 ^ n| / 10 ^ n
      ≤ (1 / 2) / 10 ^ n := by gcongr
    _ = 1 / (2 * 10 ^ n) := by rw [div_div]

/-- C4: Vehicle.update changes the position by exactly (speed / 3600) * dt
where speed is the value after the behavior ran; with no behavior, one tick
from position p yields p + (speed / 3600) * dt; no floor at zero is applied,
so a negative post-behavior speed strictly decreases the position when
dt > 0. -/
theorem vehicle_update_position (v : Vehicle) (dt t : ℚ) :
    ((v.update dt t).state.position
        = (runBehavior v dt t).position + ((runBehavior v dt t).speed / 3600) * dt) ∧
    (v.behavior = none →
        (v.update dt t).state.position
          = v.state.position + (v.state.speed / 3600) * dt) ∧
    ((runBehavior v dt t).speed < 0 → 0 < dt →
        (v.update dt t).state.position < (runBehavior v dt t).position) := by
  refine ⟨rfl, ?_, ?_⟩
  · intro hb
    simp [Vehicle.update, runBehavior, hb]
  · intro hs hdt
    have hneg : (runBehavior v dt t).speed / 3600 < 0 :=
      div_neg_of_neg_of_pos hs (by norm_num)
    have : ((runBehavior v dt t).speed / 3600) * dt < 0 :=
      mul_neg_of_neg_of_pos hneg hdt
    show (runBehavior v dt t).position + ((runBehavior v dt t).speed / 3600) * dt
        < (runBehavior v dt t).position
    linarith

/-- C4 witness: a behavior-free vehicle at position 5 with speed -10 and one
tick of dt = 2 moves to 5 + (-10 / 3600) * 2, strictly below 5. -/
theorem vehicle_update_position_witness :
    vNeg.behavior = none ∧ (runBehavior vNeg 2 0).speed < 0 ∧ (0 : ℚ) < 2 ∧
    ((vNeg.update 2 0).state.position = vNeg.state.position + (vNeg.state.speed / 3600) * 2) ∧
    ((vNeg.update 2 0).state.position < (runBehavior vNeg 2 0).position) :=
  ⟨rfl, by norm_num [runBehavior, vNeg], by norm_num,
   (vehicle_update_position vNeg 2 0).2.1 rfl,
   (vehicle_update_position vNeg 2 0).2.2 (by norm_num [runBehavior, vNeg]) (by norm_num)⟩

/-- C5: the two-phase tick of the code (update every vehicle in registration
order, then snapshot every transponder in the same order) produces exactly
the state and appended records of the per-vehicle interleaved tick of the
spec.  Behaviors in this embedding are functions of their own vehicle state
only, which is the proviso of the claim. -/
theorem update_system_refines_tickSpec (sys : TrafficSystem) (dt t : ℚ) :
    sys.update_system dt t = sys.tickSpec dt t := by
  simp only [TrafficSystem.update_system, TrafficSystem.tickSpec, tick_foldl,
    List.nil_append, List.map_map]
  rfl

/-- C8: the transponder snapshot is a pure function of the bound vehicle
state: vehicle_id verbatim, speed rounded to 2 digits, position rounded to 3
digits (the rounding error bounds make the precision claim exact), and two
snapshots of the same unmutated state are identical. -/
theorem transmit_snapshot (v : VehicleState) :
    List.lookup "vehicle_id" (Transponder.transmit v) = some (Value.str v.vehicle_id) ∧
    List.lookup "speed" (Transponder.transmit v) = some (Value.num (pyRound v.speed 2)) ∧
    List.lookup "position" (Transponder.transmit v) = some (Value.num (pyRound v.position 3)) ∧
    |pyRound v.speed 2 - v.speed| ≤ 1 / 200 ∧
    |pyRound v.position 3 - v.position| ≤ 1 / 2000 ∧
    Transponder.transmit v = Transponder.transmit v := by
  refine ⟨?_, ?_, ?_, ?_, ?_, rfl⟩
  · simp [Transponder.transmit, List.lookup]
  · simp [Transponder.transmit, List.lookup]
  · simp [Transponder.transmit, List.lookup]
  · have h := pyRound_close v.speed 2
    norm_num at h ⊢
    exact h
  · have h := pyRound_close v.position 3
    norm_num at h ⊢
    exact h

/-- C9: random_slowdown leaves the vehicle completely unchanged unless
floor(sim_time) mod 10 = 0 and sim_time > 0; when it fires with a draw c
from [-5, 5], the new speed is max(0, old speed + c), nothing else changes,
and the resulting speed is never below 0. -/
theorem random_slowdown_fires (c : ℚ) (v : VehicleState) (dt t : ℚ)
    (hc1 : -5 ≤ c) (hc2 : c ≤ 5) :
    (¬(⌊t⌋ % 10 = 0 ∧ 0 < t) → random_slowdown c v dt t = v) ∧
    ((⌊t⌋ % 10 = 0 ∧ 0 < t) →
        (random_slowdown c v dt t).speed = max 0 (v.speed + c) ∧
        (random_slowdown c v dt t).vehicle_id = v.vehicle_id ∧
        (random_slowdown c v dt t).position = v.position ∧
        0 ≤ (random_slowdown c v dt t).speed) := by
  have hpy : 0 < t → pyInt t = ⌊t⌋ := fun ht => if_pos (le_of_lt ht)
  constructor
  · intro hn
    unfold random_slowdown
    rw [if_neg]
    intro hcond
    exact hn ⟨by rw [← hpy hcond.2]; exact hcond.1, hcond.2⟩
  · intro hcond
    unfold random_slowdown
    rw [if_pos ⟨by rw [hpy hcond.2]; exact hcond.1, hcond.2⟩]
    exact ⟨rfl, rfl, rfl, le_max_left 0 _⟩

/-- C1 counterexample: running one tick of update_system on a concrete
one-vehicle system appends exactly one record, and its field list is
vehicle_id, speed, position, time, so the field set of an appended record is
not the claimed set containing sim_time: the timestamp key the code attaches
is "time". -/
theorem record_fields_counterexample :
    (sysOne.update_system 1 0).data_log.map (fun r => r.map Prod.fst)
        = [["vehicle_id", "speed", "position", "time"]] ∧
    ((sysOne.update_system 1 0).data_log.flatMap (fun r => r.map Prod.fst)).contains
        "sim_time" = false := by
  constructor <;>
    simp [sysOne, TrafficSystem.update_system, Vehicle.make, Vehicle.update,
      runBehavior, timedRecord, Transponder.transmit]

/-- C1 amended: every record appended to the log by a tick is a mapping with
exactly the four fields vehicle_id, speed, position, and time, in that order
(the timestamp field is named time, not sim_time). -/
theorem record_fields_amended (sys : TrafficSystem) (dt t : ℚ) :
    (sys.update_system dt t).data_log.map (fun r => r.map Prod.fst)
      = sys.data_log.map (fun r => r.map Prod.fst)
        ++ List.replicate sys.vehicles.length
            ["vehicle_id", "speed", "position", "time"] := by
  simp only [TrafficSystem.update_system, List.map_append, List.map_map]
  congr 1
  have hcomp : ((fun r : Record => r.map Prod.fst)
        ∘ (fun v : Vehicle => timedRecord v t) ∘ fun v : Vehicle => v.update dt t)
      = fun _ : Vehicle => ["vehicle_id", "speed", "position", "time"] := by
    funext v
    simp [keys_timedRecord]
  rw [hcomp, List.map_const']

/-- C2: with duration > 0 and dt > 0, one simulate call runs exactly
floor(duration / dt) ticks; it appends one record per vehicle per tick, so
the log grows by steps * number_of_vehicles records, and tick k stamps all
of its records with sim_time k * dt, for k = 0 up to steps - 1. -/
theorem simulate_tick_structure (sys : TrafficSystem) (duration dt : ℚ)
    (hd : 0 < duration) (hdt : 0 < dt) :
    ((⌊duration / dt⌋.toNat : ℤ) = ⌊duration / dt⌋) ∧
    ((sys.simulate duration dt).1.data_log.length
        = sys.data_log.length + ⌊duration / dt⌋.toNat * sys.vehicles.length) ∧
    ((sys.simulate duration dt).1.data_log.map (fun r => List.lookup "time" r)
        = sys.data_log.map (fun r => List.lookup "time" r)
          ++ (List.range ⌊duration / dt⌋.toNat).flatMap
              (fun k => List.replicate sys.vehicles.length
                (some (Value.num ((k : ℚ) * dt))))) := by
  have hq : 0 ≤ duration / dt := le_of_lt (div_pos hd hdt)
  have hpy : pyInt (duration / dt) = ⌊duration / dt⌋ := if_pos hq
  have htn : (⌊duration / dt⌋.toNat : ℤ) = ⌊duration / dt⌋ :=
    Int.toNat_of_nonneg (Int.floor_nonneg.2 hq)
  refine ⟨htn, ?_, ?_⟩
  · simp only [TrafficSystem.simulate, hpy]
    rw [runSteps_eq]
    simp [simLog_length]
  · simp only [TrafficSystem.simulate, hpy]
    rw [runSteps_eq]
    simp [simLog_times]

/-- C2 witness: simulate(duration = 2, dt = 1) on a concrete one-vehicle
system runs floor(2 / 1) = 2 ticks and appends 2 records stamped 0 and 1. -/
theorem simulate_tick_structure_witness :
    (0 : ℚ) < 2 ∧ (0 : ℚ) < 1 ∧
    (((⌊(2 : ℚ) / 1⌋.toNat : ℤ) = ⌊(2 : ℚ) / 1⌋) ∧
      ((sysOne.simulate 2 1).1.data_log.length
          = sysOne.data_log.length + ⌊(2 : ℚ) / 1⌋.toNat * sysOne.vehicles.length) ∧
      ((sysOne.simulate 2 1).1.data_log.map (fun r => List.lookup "time" r)
          = sysOne.data_log.map (fun r => List.lookup "time" r)
            ++ (List.range ⌊(2 : ℚ) / 1⌋.toNat).flatMap
                (fun k => List.replicate sysOne.vehicles.length
                  (some (Value.num ((k : ℚ) * 1)))))) :=
  ⟨by norm_num, by norm_num, simulate_tick_structure sysOne 2 1 (by norm_num) (by norm_num)⟩

/-- C3: a raising behavior is contained: every tick appends exactly one
record per vehicle whatever the behaviors do; a vehicle whose behavior
raised still integrates its position from the state the behavior left
behind; and in a two-vehicle system where the first behavior always raises,
the second vehicle record is still appended. -/
theorem behavior_failure_isolation (sys : TrafficSystem) (dt t : ℚ) :
    ((sys.update_system dt t).data_log.length
        = sys.data_log.length + sys.vehicles.length) ∧
    (∀ (v : Vehicle) (b : Behavior) (s2 : VehicleState),
        v.behavior = some b → (b v.state dt t).1 = s2 →
        (v.update dt t).state.position = s2.position + (s2.speed / 3600) * dt) ∧
    (∀ (va vb : Vehicle) (log : List Record) (w : Bool) (c j : String),
        (TrafficSystem.update_system ⟨[va, vb], log, w, c, j⟩ dt t).data_log
          = log ++ [timedRecord (va.update dt t) t, timedRecord (vb.update dt t) t]) := by
  refine ⟨?_, ?_, ?_⟩
  · simp [TrafficSystem.update_system]
  · intro v b s2 hb hs
    simp [Vehicle.update, runBehavior, hb, hs]
  · intro va vb log w c j
    simp [TrafficSystem.update_system]

/-- C3 witness: with the always-raising behavior on the first vehicle of a
concrete two-vehicle system, the tick appends both records and the failed
vehicle still integrates from the state at the time of failure. -/
theorem behavior_failure_isolation_witness :
    ((sysTwo.update_system 1 0).data_log.length
        = sysTwo.data_log.length + sysTwo.vehicles.length) ∧
    ((vFail.update 1 0).state.position
        = (alwaysFail vFail.state 1 0).1.position
          + ((alwaysFail vFail.state 1 0).1.speed / 3600) * 1) ∧
    ((TrafficSystem.update_system ⟨[vFail, vOk], [], false, "data_log.csv", "data_log.json"⟩ 1 0).data_log
        = [] ++ [timedRecord (vFail.update 1 0) 0, timedRecord (vOk.update 1 0) 0]) :=
  ⟨(behavior_failure_isolation sysTwo 1 0).1,
   (behavior_failure_isolation sysTwo 1 0).2.1 vFail alwaysFail _ rfl rfl,
   (behavior_failure_isolation sysTwo 1 0).2.2 vFail vOk [] false "data_log.csv" "data_log.json"⟩

/-- C6: analyze invokes the callback exactly once per record of the log, in
log order: the invocation trace visits exactly the log, in order, and pairs
each record with its callback outcome, so a raising callback on one record
never stops the scan of the remaining records. -/
theorem analyze_trace {α : Type} (cb : Record → Except String α) (log : List Record) :
    (TrafficSystem.analyze cb log).map Prod.fst = log ∧
    (TrafficSystem.analyze cb log).map Prod.snd = log.map cb := by
  induction log with
  | nil => exact ⟨rfl, rfl⟩
  | cons r rest ih =>
      exact ⟨by simp [TrafficSystem.analyze, ih.1], by simp [TrafficSystem.analyze, ih.2]⟩

/-- C7: with an empty vehicle set an entire simulate call leaves the log
empty, and the export step then writes no file at all: export of an empty
log returns before touching any file, and simulate still returns. -/
theorem empty_log_export_skipped (sys : TrafficSystem) (duration dt : ℚ)
    (hv : sys.vehicles = []) (hl : sys.data_log = []) :
    (sys.simulate duration dt).1.data_log = [] ∧
    (sys.simulate duration dt).2 = none ∧
    TrafficSystem.export_logs [] = none := by
  have hlog : (TrafficSystem.runSteps sys dt 0 ((pyInt (duration / dt)).toNat)).data_log
      = [] := by
    rw [runSteps_eq]
    simp [hv, hl, simLog_nil]
  refine ⟨?_, ?_, rfl⟩
  · simpa [TrafficSystem.simulate] using hlog
  · simp [TrafficSystem.simulate, hlog, TrafficSystem.export_logs]

/-- C7 witness: a freshly constructed system with persistence enabled and no
vehicles, simulated for duration 5 at dt 1, ends with an empty log and no
file written. -/
theorem empty_log_export_skipped_witness :
    (TrafficSystem.make true "data_log.csv" "data_log.json").vehicles = [] ∧
    (TrafficSystem.make true "data_log.csv" "data_log.json").data_log = [] ∧
    (((TrafficSystem.make true "data_log.csv" "data_log.json").simulate 5 1).1.data_log = [] ∧
      ((TrafficSystem.make true "data_log.csv" "data_log.json").simulate 5 1).2 = none ∧
      TrafficSystem.export_logs [] = none) :=
  ⟨rfl, rfl,
   empty_log_export_skipped (TrafficSystem.make true "data_log.csv" "data_log.json") 5 1 rfl rfl⟩

/-- C10: a newly constructed Vehicle starts at position 0; simulate runs its
ticks starting from the vehicle states the system already holds and only
appends to the log, and a second simulate call continues from the vehicle
states the first call left while its own sim_time clock restarts at 0. -/
theorem vehicle_state_persists (vid : String) (s : ℚ) (b : Option Behavior)
    (sys : TrafficSystem) (d1 dt1 d2 dt2 : ℚ) :
    (Vehicle.make vid s b).state.position = 0 ∧
    ((sys.simulate d1 dt1).1.vehicles
        = simVehicles sys.vehicles dt1 0 ((pyInt (d1 / dt1)).toNat)) ∧
    ((sys.simulate d1 dt1).1.data_log
        = sys.data_log ++ simLog sys.vehicles dt1 0 ((pyInt (d1 / dt1)).toNat)) ∧
    (((sys.simulate d1 dt1).1.simulate d2 dt2).1.vehicles
        = simVehicles (simVehicles sys.vehicles dt1 0 ((pyInt (d1 / dt1)).toNat))
            dt2 0 ((pyInt (d2 / dt2)).toNat)) := by
  refine ⟨rfl, ?_, ?_, ?_⟩ <;> simp [TrafficSystem.simulate, runSteps_eq]

/-- C9 witness: at sim_time 10 with draw 3 the behavior fires on the
concrete state ⟨W, 50, 7⟩ and sets speed to max(0, 50 + 3) = 53. -/
theorem random_slowdown_fires_witness :
    (-5 : ℚ) ≤ 3 ∧ (3 : ℚ) ≤ 5 ∧ (⌊(10 : ℚ)⌋ % 10 = 0 ∧ (0 : ℚ) < 10) ∧
    (random_slowdown 3 vsW 1 10).speed = max 0 (vsW.speed + 3) ∧
    (random_slowdown 3 vsW 1 10).speed = 53 :=
  ⟨by norm_num, by norm_num, ⟨by norm_num, by norm_num⟩,
   ((random_slowdown_fires 3 vsW 1 10 (by norm_num) (by norm_num)).2
      ⟨by norm_num, by norm_num⟩).1,
   by
    rw [((random_slowdown_fires 3 vsW 1 10 (by norm_num) (by norm_num)).2
      ⟨by norm_num, by norm_num⟩).1]
    norm_num [vsW]⟩
